import Mathlib

/-!
Shallow embedding of the clouddatastore bridge layer of the datastore wrapper:
the Original-Store Bridge, Transaction Bridge and Iterator Bridge of
src/unnamed/part_000 and the transaction facade of
src/clouddatastore/transaction.go, together with spec-modelled contracts for
the collaborators the excerpt calls into (key/record translator, error
normalizer, driver client/transaction/cursor, and the shared cache bridge).

Driver calls are instrumented: each bridge operation also returns the number
of driver calls it performed, so that claims of the form "no driver call is
attempted" are provable about the embedding.
-/

/-- Wrapper-level key (w.Key): the caller-facing opaque record identifier. -/
structure WKey where
  val : Nat
deriving DecidableEq

/-- Driver-level key (datastore.Key). -/
structure OKey where
  val : Nat
deriving DecidableEq

/-- Wrapper-level property list (w.PropertyList): the ordered named fields of one record. -/
structure WPropertyList where
  props : List (String × Int)
deriving DecidableEq

/-- Driver-level property list (datastore.PropertyList). -/
structure OPropertyList where
  props : List (String × Int)
deriving DecidableEq

/-- Wrapper-level pending key (w.PendingKey), returned by transactional writes. -/
structure WPendingKey where
  val : Nat
deriving DecidableEq

/-- Driver-level pending key (datastore.PendingKey). -/
structure OPendingKey where
  val : Nat
deriving DecidableEq

/-- Driver-level commit record (datastore.Commit): resolves pending keys after a commit. -/
structure OCommit where
  resolve : OPendingKey → OKey

/-- Modelled from the spec: the key translator of section 4.1 (its file is not under src/) is a pure bijective conversion from wrapper keys to driver keys. -/
def toOriginalKey (k : WKey) : OKey := ⟨k.val⟩

/-- Modelled from the spec: inverse key translation of section 4.1. -/
def toWrapperKey (k : OKey) : WKey := ⟨k.val⟩

/-- Modelled from the spec: slice-level key translation, element-wise and order-preserving. -/
def toOriginalKeys (ks : List WKey) : List OKey := ks.map toOriginalKey

/-- Modelled from the spec: slice-level inverse key translation. -/
def toWrapperKeys (ks : List OKey) : List WKey := ks.map toWrapperKey

/-- Modelled from the spec: property-list translation of section 4.1. -/
def toOriginalPropertyList (p : WPropertyList) : OPropertyList := ⟨p.props⟩

/-- Modelled from the spec: inverse property-list translation of section 4.1. -/
def toWrapperPropertyList (p : OPropertyList) : WPropertyList := ⟨p.props⟩

/-- Modelled from the spec: slice-level property-list translation, element-wise and order-preserving. -/
def toOriginalPropertyListList (ps : List WPropertyList) : List OPropertyList :=
  ps.map toOriginalPropertyList

/-- Modelled from the spec: slice-level inverse property-list translation. -/
def toWrapperPropertyListList (ps : List OPropertyList) : List WPropertyList :=
  ps.map toWrapperPropertyList

/-- Modelled from the spec: pending-key translation of section 4.1. -/
def toWrapperPendingKey (p : OPendingKey) : WPendingKey := ⟨p.val⟩

/-- Modelled from the spec: inverse pending-key translation of section 4.1. -/
def toOriginalPendingKey (p : WPendingKey) : OPendingKey := ⟨p.val⟩

/-- Modelled from the spec: slice-level pending-key translation, element-wise and order-preserving. -/
def toWrapperPendingKeys (ps : List OPendingKey) : List WPendingKey :=
  ps.map toWrapperPendingKey

/-- Driver-level error values (the errors the underlying store can report). The done constructor is the driver cursor's no-more-results signal. -/
inductive OErr where
  | noSuchEntity
  | entityExists
  | done
  | other (code : Nat)
deriving DecidableEq

/-- Wrapper-level error taxonomy of spec section 7. The unexpectedContext constructor is the "unexpected context" error produced by the Transaction Bridge; multi is w.MultiError, positionally aligned with the input batch, a nil slot meaning per-item success. -/
inductive WError where
  | noSuchEntity
  | entityExists
  | errDone
  | unexpectedContext
  | unknown (code : Nat)
  | multi (errs : List (Option WError))

/-- Modelled from the spec: the error normalizer of section 4.2 (its file is not under src/) maps driver errors to the wrapper taxonomy; the cursor's no-more-results signal becomes the terminal errDone, anything unrecognized passes through as an opaque wrapped error. -/
def toWrapperError : OErr → WError
  | .noSuchEntity => .noSuchEntity
  | .entityExists => .entityExists
  | .done => .errDone
  | .other code => .unknown code

/-- Driver transaction handle (datastore.Transaction, spec section 6): the batch operations of the underlying driver inside a transaction, as pure outcome functions. -/
structure DriverTx where
  putMulti : List OKey → List OPropertyList → Except OErr (List OPendingKey)
  getMulti : List OKey → List OPropertyList → Except OErr (List OPropertyList)
  deleteMulti : List OKey → Except OErr Unit
  commit : Except OErr OCommit
  rollback : Except OErr Unit

/-- Driver cursor state (datastore.Iterator): the remaining query results. -/
structure DriverIterator where
  items : List (OKey × OPropertyList)

/-- Driver cursor step (spec section 6): Next populates the destination buffer and yields the next key, or the done signal once exhausted, leaving the cursor exhausted. -/
def DriverIterator.next (t : DriverIterator) (dst : OPropertyList) :
    Except OErr (OKey × OPropertyList) × DriverIterator :=
  match t.items with
  | [] => (.error .done, t)
  | x :: xs =>
    let _ := dst
    (.ok x, ⟨xs⟩)

/-- Driver client (datastore.Client, spec section 6), restricted to the operations the claims use. -/
structure DriverClient where
  getMulti : List OKey → List OPropertyList → Except OErr (List OPropertyList)
  run : Nat → DriverIterator

/-- The transaction slot of the ambient request context: ctx.Value(contextTransaction) holds either nothing or the driver transaction handle stored by Begin. -/
def Ctx := Option DriverTx

/-- Lookup of the driver transaction handle in the ambient context (transaction.go lines 16-23): returns the stored handle, or nothing when the context carries none. -/
def getTx (ctx : Ctx) : Option DriverTx := ctx

/-- The write-back loop of the GetMulti bridges (for idx, wPs := range wPss do psList idx := wPs): every slot of psList up to the length of wPss is overwritten with the fetched value. In the source the two slices always have equal length, because the driver populates in place the very slice it was handed, so the case of a longer wPss (an index panic in Go) never arises. -/
def writeBackPrefix : List WPropertyList → List WPropertyList → List WPropertyList
  | ps, [] => ps
  | [], _ :: _ => []
  | _ :: ps, w :: ws => w :: writeBackPrefix ps ws

/-- PutMulti of originalTransactionBridgeImpl (src/unnamed/part_000 lines 146-163): resolves the transaction handle from the ambient context, fails with the unexpected-context error when there is none, otherwise translates the batch, calls the driver transaction once and translates the pending keys back. The Nat counts driver calls. -/
def originalTransactionBridgeImpl.PutMulti (ctx : Ctx) (keys : List WKey)
    (psList : List WPropertyList) : Except WError (List WPendingKey) × Nat :=
  match getTx ctx with
  | none => (.error .unexpectedContext, 0)
  | some baseTx =>
    match baseTx.putMulti (toOriginalKeys keys) (toOriginalPropertyListList psList) with
    | .error err => (.error (toWrapperError err), 1)
    | .ok origPKeys => (.ok (toWrapperPendingKeys origPKeys), 1)

/-- GetMulti of originalTransactionBridgeImpl (src/unnamed/part_000 lines 165-186): same context guard; on driver success the fetched lists are written back slot by slot into the caller slice, on failure only the normalized error is returned and the caller slice is left as it was. Returns (error, caller slice after the call, driver calls). -/
def originalTransactionBridgeImpl.GetMulti (ctx : Ctx) (keys : List WKey)
    (psList : List WPropertyList) : Option WError × List WPropertyList × Nat :=
  match getTx ctx with
  | none => (some .unexpectedContext, psList, 0)
  | some baseTx =>
    match baseTx.getMulti (toOriginalKeys keys) (toOriginalPropertyListList psList) with
    | .error err => (some (toWrapperError err), psList, 1)
    | .ok origPss =>
      (none, writeBackPrefix psList (toWrapperPropertyListList origPss), 1)

/-- DeleteMulti of originalTransactionBridgeImpl (src/unnamed/part_000 lines 188-202): same context guard, then one driver call. -/
def originalTransactionBridgeImpl.DeleteMulti (ctx : Ctx) (keys : List WKey) :
    Option WError × Nat :=
  match getTx ctx with
  | none => (some .unexpectedContext, 0)
  | some baseTx =>
    match baseTx.deleteMulti (toOriginalKeys keys) with
    | .error err => (some (toWrapperError err), 1)
    | .ok _ => (none, 1)

/-- GetMulti of originalClientBridgeImpl (src/unnamed/part_000 lines 88-104): the non-transactional read path; translates the batch, calls the driver client, and on success writes the fetched lists back slot by slot; on failure the caller slice is untouched. -/
def originalClientBridgeImpl.GetMulti (client : DriverClient) (keys : List WKey)
    (psList : List WPropertyList) : Option WError × List WPropertyList :=
  match client.getMulti (toOriginalKeys keys) (toOriginalPropertyListList psList) with
  | .error err => (some (toWrapperError err), psList)
  | .ok origPss => (none, writeBackPrefix psList (toWrapperPropertyListList origPss))

/-- Outcome of a Go call that can panic: either a returned value or a runtime panic (nil-pointer dereference, index out of range). -/
inductive GoR (α : Type) where
  | ret (a : α)
  | panicked
deriving DecidableEq

/-- Commit of transactionImpl (transaction.go lines 109-121): when the ambient context carries no driver transaction, returns a nil commit and a nil error without any driver call; otherwise commits the driver transaction, wrapping the result or normalizing the error. The pair mirrors the Go result (w.Commit, error); the Nat counts driver calls. -/
def transactionImpl.Commit (ctx : Ctx) : (Option OCommit × Option WError) × Nat :=
  match getTx ctx with
  | none => ((none, none), 0)
  | some baseTx =>
    match baseTx.commit with
    | .error err => ((none, some (toWrapperError err)), 1)
    | .ok commit => ((some commit, none), 1)

/-- Rollback of transactionImpl (transaction.go lines 123-135). The guard tests the receiver tx for nilness, not the handle baseTx fetched from the context: txIsNil is the nilness of the receiver. When the receiver is non-nil and the context carries no handle, the guard falls through and baseTx.Rollback dereferences a nil pointer, modelled as panicked. The Nat counts driver calls. -/
def transactionImpl.Rollback (txIsNil : Bool) (ctx : Ctx) : GoR (Option WError) × Nat :=
  let baseTx := getTx ctx
  if txIsNil then (.ret none, 0)
  else
    match baseTx with
    | none => (.panicked, 0)
    | some tx =>
      match tx.rollback with
      | .error err => (.ret (some (toWrapperError err)), 1)
      | .ok _ => (.ret none, 1)

/-- Get of transactionImpl (transaction.go lines 33-42): runs the batch read for the single key and post-processes its error: a MultiError is unwrapped at slot 0 (indexing an empty one would panic in Go), any other failure is returned unchanged, success gives a nil error. The batch read itself goes through the shared cache bridge, which is not part of the excerpt, so its outcome is the argument multiErr. -/
def transactionImpl.Get (multiErr : Option WError) : GoR (Option WError) :=
  match multiErr with
  | some (.multi errs) =>
    match errs with
    | [] => .panicked
    | e0 :: _ => .ret e0
  | some err => .ret (some err)
  | none => .ret none

/-- Put of transactionImpl (transaction.go lines 56-65): same unwrapping as Get, and on success returns the first pending key of the batch result (indexing an empty slice would panic in Go). The arguments are the outcome of the underlying PutMulti. -/
def transactionImpl.Put (pKeys : List WPendingKey) (multiErr : Option WError) :
    GoR (Option WPendingKey × Option WError) :=
  match multiErr with
  | some (.multi errs) =>
    match errs with
    | [] => .panicked
    | e0 :: _ => .ret (none, e0)
  | some err => .ret (none, some err)
  | none =>
    match pKeys with
    | [] => .panicked
    | pk :: _ => .ret (some pk, none)

/-- Delete of transactionImpl (transaction.go lines 86-95): same unwrapping as Get over the outcome of the underlying DeleteMulti. -/
def transactionImpl.Delete (multiErr : Option WError) : GoR (Option WError) :=
  match multiErr with
  | some (.multi errs) =>
    match errs with
    | [] => .panicked
    | e0 :: _ => .ret e0
  | some err => .ret (some err)
  | none => .ret none

/-- Modelled from the spec: shared.CacheBridge.PutMultiWithTx is not under src/. Per spec section 4.5 the transactional write goes through the Transaction Bridge, and cache invalidation happens only after the store write succeeds and never alters the store result, so the result of the operation is exactly the Transaction Bridge result. -/
def CacheBridge.PutMultiWithTx (ctx : Ctx) (keys : List WKey)
    (psList : List WPropertyList) : Except WError (List WPendingKey) × Nat :=
  originalTransactionBridgeImpl.PutMulti ctx keys psList

/-- The callback transactionImpl.PutMulti hands to shared.PutMultiOps (transaction.go lines 74-77): it forwards the batch to the cache bridge and returns nil in the concrete-Key slot, pending keys and error in the other two. -/
def transactionImpl.PutMultiCall (ctx : Ctx) (keys : List WKey)
    (psList : List WPropertyList) :
    Option (List WKey) × Except WError (List WPendingKey) × Nat :=
  let r := CacheBridge.PutMultiWithTx ctx keys psList
  (none, r.1, r.2)

/-- PutMulti of transactionImpl (transaction.go lines 67-84). Modelled from the spec where it leaves the excerpt: shared.PutMultiOps is not under src/; per the spec it encodes the sources, invokes the callback once on the whole batch without reordering, and hands back the callback's pending keys and error, which the method then returns. -/
def transactionImpl.PutMulti (ctx : Ctx) (keys : List WKey)
    (psList : List WPropertyList) : Except WError (List WPendingKey) :=
  (transactionImpl.PutMultiCall ctx keys psList).2.1

/-- A pluggable cache layer (spec section 6): declares whether it is transaction-aware and can serve a value per key. -/
structure CacheLayer where
  txAware : Bool
  lookup : WKey → Option WPropertyList

/-- Provenance of one value returned by a cache-bridge read: served by the cache layer at the given position of the configured layer list, or read through the Transaction Bridge. -/
inductive Origin where
  | txBridge
  | cache (layerIdx : Nat)
deriving DecidableEq

/-- Modelled from the spec: the per-key scan of the configured cache layers inside a transaction (spec section 4.5(a)): layers are consulted in priority order starting at position start, every layer that is not transaction-aware is bypassed, and the first transaction-aware hit serves the key. -/
def firstTxAwareHit : List CacheLayer → Nat → WKey → Option (Nat × WPropertyList)
  | [], _, _ => none
  | l :: ls, i, k =>
    if l.txAware then
      match l.lookup k with
      | some v => some (i, v)
      | none => firstTxAwareHit ls (i + 1) k
    else firstTxAwareHit ls (i + 1) k

/-- Modelled from the spec: shared.CacheBridge.GetMultiWithTx is not under src/. Per spec section 4.5(a), inside a transaction every cache layer that is not transaction-aware is bypassed; a key not served by a transaction-aware layer is read straight through the Transaction Bridge, modelled by fetch. Each returned value is tagged with its provenance. -/
def CacheBridge.GetMultiWithTx (layers : List CacheLayer) (fetch : WKey → WPropertyList)
    (keys : List WKey) : List (WPropertyList × Origin) :=
  keys.map fun k =>
    match firstTxAwareHit layers 0 k with
    | some iv => (iv.2, .cache iv.1)
    | none => (fetch k, .txBridge)

/-- GetMulti of transactionImpl (transaction.go lines 44-54): builds the cache bridge over the configured layers and routes the whole batch through GetMultiWithTx. Modelled from the spec where it leaves the excerpt: shared.GetMultiOps is not under src/ and per the spec decodes results without reordering the batch. -/
def transactionImpl.GetMulti (layers : List CacheLayer) (fetch : WKey → WPropertyList)
    (keys : List WKey) : List (WPropertyList × Origin) :=
  CacheBridge.GetMultiWithTx layers fetch keys

/-- The query wrapper (queryImpl): the built driver query (as an id) and the first error recorded while building it. -/
structure queryImpl where
  dq : Nat
  firstError : Option WError

/-- The iterator wrapper (iteratorImpl): the driver cursor and the construction failure carried over from the query. -/
structure iteratorImpl where
  t : DriverIterator
  firstError : Option WError

/-- Run of originalClientBridgeImpl (src/unnamed/part_000 lines 117-123): starts the driver cursor for the built query and carries the query's first error into the iterator. -/
def originalClientBridgeImpl.Run (client : DriverClient) (q : queryImpl) : iteratorImpl :=
  ⟨client.run q.dq, q.firstError⟩

/-- Next of originalIteratorBridgeImpl (src/unnamed/part_000 lines 207-220): translates the caller buffer, advances the driver cursor once, and either normalizes the error (leaving the buffer as it was) or translates the populated buffer and key back. Returns (result, caller buffer after the call, iterator after the call). -/
def originalIteratorBridgeImpl.Next (iter : iteratorImpl) (ps : WPropertyList) :
    Except WError WKey × WPropertyList × iteratorImpl :=
  let origPs := toOriginalPropertyList ps
  match iter.t.next origPs with
  | (.error err, t2) => (.error (toWrapperError err), ps, ⟨t2, iter.firstError⟩)
  | (.ok kps, t2) => (.ok (toWrapperKey kps.1), toWrapperPropertyList kps.2, ⟨t2, iter.firstError⟩)

/-- Modelled from the spec: the wrapper iterator's Next method is not under src/ (only the bridge Next and Run are). Per spec section 4.6, an iterator carrying a construction failure returns it immediately on Next without touching the driver cursor; otherwise the call is delegated to the iterator bridge. The Nat counts driver-cursor calls; a Lean total function cannot panic, matching the no-panic contract. -/
def iteratorImpl.Next (iter : iteratorImpl) (ps : WPropertyList) :
    Except WError WKey × WPropertyList × iteratorImpl × Nat :=
  match iter.firstError with
  | some err => (.error err, ps, iter, 0)
  | none =>
    let r := originalIteratorBridgeImpl.Next iter ps
    (r.1, r.2.1, r.2.2, 1)

/-- A deterministic driver transaction used to exercise the theorems on a concrete input: a write yields one pending key per input key, a read echoes the buffers it was handed, commit resolves pending keys by identity. -/
def sampleDriverTx : DriverTx :=
  ⟨fun ks _ => .ok (ks.map fun k => ⟨k.val⟩),
   fun _ ps => .ok ps,
   fun _ => .ok (),
   .ok ⟨fun pk => ⟨pk.val⟩⟩,
   .ok ()⟩

/-- A driver transaction whose operations all fail with an opaque driver error, to exercise the failure paths on a concrete input. -/
def failingDriverTx : DriverTx :=
  ⟨fun _ _ => .error (.other 7),
   fun _ _ => .error (.other 7),
   fun _ => .error (.other 7),
   .error (.other 7),
   .error (.other 7)⟩

/-- A deterministic driver client: a read echoes the buffers it was handed; a query run yields an empty cursor. -/
def sampleDriverClient : DriverClient :=
  ⟨fun _ ps => .ok ps, fun _ => ⟨[]⟩⟩

/-- A driver client whose reads fail with an opaque driver error. -/
def failingDriverClient : DriverClient :=
  ⟨fun _ _ => .error (.other 7), fun _ => ⟨[]⟩⟩

/-- A driver client whose cursor yields exactly one record, to exercise the iterator on a concrete input. -/
def oneItemDriverClient : DriverClient :=
  ⟨fun _ ps => .ok ps, fun _ => ⟨[(⟨5⟩, ⟨[]⟩)]⟩⟩

/-- A two-layer cache configuration: a layer that is not transaction-aware followed by a transaction-aware layer that always hits, to exercise the cache-bridge read on a concrete input. -/
def sampleLayers : List CacheLayer :=
  [⟨false, fun _ => some ⟨[]⟩⟩, ⟨true, fun _ => some ⟨[]⟩⟩]

/-- A transaction-bridge fetch function for concrete inputs: every key reads back an empty record. -/
def sampleFetch : WKey → WPropertyList := fun _ => ⟨[]⟩

theorem writeBackPrefix_of_length_eq :
    ∀ ps ws : List WPropertyList, ps.length = ws.length → writeBackPrefix ps ws = ws := by
  intro ps ws
  induction ws generalizing ps with
  | nil =>
    intro h
    cases ps with
    | nil => rfl
    | cons p ps => simp at h
  | cons w ws ih =>
    intro h
    cases ps with
    | nil => simp at h
    | cons p ps =>
      simp only [List.length_cons, Nat.succ.injEq] at h
      simp only [writeBackPrefix, ih ps h]

/-- C1: every Transaction Bridge operation (PutMulti, GetMulti, DeleteMulti of originalTransactionBridgeImpl) invoked while the ambient context carries no transaction handle fails immediately with the unexpected-context error, leaves the caller slice untouched, and performs zero driver calls. -/
theorem c1_transaction_bridge_unexpected_context (ctx : Ctx) (keys : List WKey)
    (psList : List WPropertyList) (h : getTx ctx = none) :
    originalTransactionBridgeImpl.PutMulti ctx keys psList =
      (.error .unexpectedContext, 0) ∧
    originalTransactionBridgeImpl.GetMulti ctx keys psList =
      (some .unexpectedContext, psList, 0) ∧
    originalTransactionBridgeImpl.DeleteMulti ctx keys =
      (some .unexpectedContext, 0) := by
  unfold originalTransactionBridgeImpl.PutMulti originalTransactionBridgeImpl.GetMulti
    originalTransactionBridgeImpl.DeleteMulti
  rw [h]
  exact ⟨rfl, rfl, rfl⟩

theorem c1_transaction_bridge_unexpected_context_witness :
    getTx (none : Ctx) = none ∧
    originalTransactionBridgeImpl.PutMulti none [⟨1⟩] [⟨[]⟩] =
      (.error .unexpectedContext, 0) ∧
    originalTransactionBridgeImpl.GetMulti none [⟨1⟩] [⟨[]⟩] =
      (some .unexpectedContext, [⟨[]⟩], 0) ∧
    originalTransactionBridgeImpl.DeleteMulti none [⟨1⟩] =
      (some .unexpectedContext, 0) :=
  ⟨rfl, c1_transaction_bridge_unexpected_context none [⟨1⟩] [⟨[]⟩] rfl⟩

/-- C3: Commit of transactionImpl on a handle whose ambient context carries no driver transaction returns a nil commit result and a nil error, a no-op, with zero driver calls. -/
theorem c3_commit_noop_without_tx (ctx : Ctx) (h : getTx ctx = none) :
    transactionImpl.Commit ctx = ((none, none), 0) := by
  unfold transactionImpl.Commit
  rw [h]

theorem c3_commit_noop_without_tx_witness :
    getTx (none : Ctx) = none ∧ transactionImpl.Commit none = ((none, none), 0) :=
  ⟨rfl, c3_commit_noop_without_tx none rfl⟩

/-- C4: Rollback of transactionImpl guards on the nilness of the receiver tx instead of the handle baseTx fetched from the context, so a call on a non-nil Transaction whose ambient context carries no driver transaction skips the no-op branch and dereferences the nil handle (a panic), with zero driver calls. -/
theorem c4_rollback_wrong_nil_guard (ctx : Ctx) (h : getTx ctx = none) :
    transactionImpl.Rollback false ctx = (.panicked, 0) := by
  unfold transactionImpl.Rollback
  rw [show getTx ctx = none from h]
  rfl

theorem c4_rollback_wrong_nil_guard_witness :
    getTx (none : Ctx) = none ∧ transactionImpl.Rollback false none = (.panicked, 0) :=
  ⟨rfl, c4_rollback_wrong_nil_guard none rfl⟩

/-- C5: the single-item convenience operations of transactionImpl (Get, Put, Delete) unwrap slot 0 when the underlying multi operation fails with a MultiError, return any non-MultiError failure unchanged, and on success return a nil error (for Put, the first pending key of the batch result). -/
theorem c5_single_ops_unwrap_slot_zero (e0 : Option WError)
    (rest : List (Option WError)) (err : WError) (pk : WPendingKey)
    (pks : List WPendingKey) (hne : ∀ l, err ≠ WError.multi l) :
    transactionImpl.Get (some (.multi (e0 :: rest))) = .ret e0 ∧
    transactionImpl.Get (some err) = .ret (some err) ∧
    transactionImpl.Get none = .ret none ∧
    transactionImpl.Put pks (some (.multi (e0 :: rest))) = .ret (none, e0) ∧
    transactionImpl.Put pks (some err) = .ret (none, some err) ∧
    transactionImpl.Put (pk :: pks) none = .ret (some pk, none) ∧
    transactionImpl.Delete (some (.multi (e0 :: rest))) = .ret e0 ∧
    transactionImpl.Delete (some err) = .ret (some err) ∧
    transactionImpl.Delete none = .ret none := by
  refine ⟨rfl, ?_, rfl, rfl, ?_, rfl, rfl, ?_, rfl⟩ <;>
    cases err <;> first | rfl | exact absurd rfl (hne _)

theorem c5_single_ops_unwrap_slot_zero_witness :
    (∀ l, WError.noSuchEntity ≠ WError.multi l) ∧
    (transactionImpl.Get (some (.multi (some .entityExists :: []))) =
        .ret (some .entityExists) ∧
      transactionImpl.Get (some .noSuchEntity) = .ret (some .noSuchEntity) ∧
      transactionImpl.Get none = .ret none ∧
      transactionImpl.Put [] (some (.multi (some .entityExists :: []))) =
        .ret (none, some .entityExists) ∧
      transactionImpl.Put [] (some .noSuchEntity) = .ret (none, some .noSuchEntity) ∧
      transactionImpl.Put (⟨3⟩ :: []) none = .ret (some ⟨3⟩, none) ∧
      transactionImpl.Delete (some (.multi (some .entityExists :: []))) =
        .ret (some .entityExists) ∧
      transactionImpl.Delete (some .noSuchEntity) = .ret (some .noSuchEntity) ∧
      transactionImpl.Delete none = .ret none) :=
  ⟨fun _ h => WError.noConfusion h,
   c5_single_ops_unwrap_slot_zero (some .entityExists) [] .noSuchEntity ⟨3⟩ []
     (fun _ h => WError.noConfusion h)⟩

/-- C6: a successful transactional PutMulti returns the driver transaction's pending keys translated to the wrapper representation, and the concrete-Key slot handed back by the callback of transactionImpl.PutMulti is nil. -/
theorem c6_putmulti_returns_pending_keys (ctx : Ctx) (tx : DriverTx)
    (keys : List WKey) (psList : List WPropertyList) (origPKeys : List OPendingKey)
    (hctx : getTx ctx = some tx)
    (hdrv : tx.putMulti (toOriginalKeys keys) (toOriginalPropertyListList psList) =
      .ok origPKeys) :
    transactionImpl.PutMulti ctx keys psList = .ok (toWrapperPendingKeys origPKeys) ∧
    (transactionImpl.PutMultiCall ctx keys psList).1 = none := by
  unfold transactionImpl.PutMulti transactionImpl.PutMultiCall
    CacheBridge.PutMultiWithTx originalTransactionBridgeImpl.PutMulti
  simp [hctx, hdrv]

theorem c6_putmulti_returns_pending_keys_witness :
    getTx (some sampleDriverTx) = some sampleDriverTx ∧
    sampleDriverTx.putMulti (toOriginalKeys [⟨1⟩]) (toOriginalPropertyListList [⟨[]⟩]) =
      .ok [⟨1⟩] ∧
    transactionImpl.PutMulti (some sampleDriverTx) [⟨1⟩] [⟨[]⟩] =
      .ok (toWrapperPendingKeys [⟨1⟩]) ∧
    (transactionImpl.PutMultiCall (some sampleDriverTx) [⟨1⟩] [⟨[]⟩]).1 = none :=
  ⟨rfl, rfl,
   c6_putmulti_returns_pending_keys (some sampleDriverTx) sampleDriverTx [⟨1⟩] [⟨[]⟩]
     [⟨1⟩] rfl rfl⟩

/-- C7: a successful GetMulti, on the non-transactional path (originalClientBridgeImpl) and on the transactional path (originalTransactionBridgeImpl), hands the caller a property-list slice of the same length as the key batch in which slot i holds the translated driver result for key i: positional alignment survives input translation, the driver call and output write-back. -/
theorem c7_getmulti_positional_alignment (client : DriverClient) (tx : DriverTx)
    (keys : List WKey) (psList : List WPropertyList) (outC outT : List OPropertyList)
    (hlen : psList.length = keys.length)
    (hC : client.getMulti (toOriginalKeys keys) (toOriginalPropertyListList psList) =
      .ok outC)
    (hCl : outC.length = keys.length)
    (hT : tx.getMulti (toOriginalKeys keys) (toOriginalPropertyListList psList) =
      .ok outT)
    (hTl : outT.length = keys.length) :
    (originalClientBridgeImpl.GetMulti client keys psList).1 = none ∧
    (originalClientBridgeImpl.GetMulti client keys psList).2.length = keys.length ∧
    (∀ i : Nat, (originalClientBridgeImpl.GetMulti client keys psList).2[i]? =
      (outC[i]?).map toWrapperPropertyList) ∧
    (originalTransactionBridgeImpl.GetMulti (some tx) keys psList).1 = none ∧
    (originalTransactionBridgeImpl.GetMulti (some tx) keys psList).2.1.length =
      keys.length ∧
    (∀ i : Nat, (originalTransactionBridgeImpl.GetMulti (some tx) keys psList).2.1[i]? =
      (outT[i]?).map toWrapperPropertyList) := by
  have hCeq : originalClientBridgeImpl.GetMulti client keys psList =
      (none, toWrapperPropertyListList outC) := by
    simp only [originalClientBridgeImpl.GetMulti, hC]
    rw [writeBackPrefix_of_length_eq psList (toWrapperPropertyListList outC)
      (by simp [toWrapperPropertyListList, hlen, hCl])]
  have hTeq : originalTransactionBridgeImpl.GetMulti (some tx) keys psList =
      (none, toWrapperPropertyListList outT, 1) := by
    simp only [originalTransactionBridgeImpl.GetMulti, getTx, hT]
    rw [writeBackPrefix_of_length_eq psList (toWrapperPropertyListList outT)
      (by simp [toWrapperPropertyListList, hlen, hTl])]
  refine ⟨by rw [hCeq], ?_, ?_, by rw [hTeq], ?_, ?_⟩
  · rw [hCeq]
    simp [toWrapperPropertyListList, hCl]
  · intro i
    rw [hCeq]
    simp [toWrapperPropertyListList, List.getElem?_map]
  · rw [hTeq]
    simp [toWrapperPropertyListList, hTl]
  · intro i
    rw [hTeq]
    simp [toWrapperPropertyListList, List.getElem?_map]

theorem c7_getmulti_positional_alignment_witness :
    ([⟨[]⟩] : List WPropertyList).length = ([⟨1⟩] : List WKey).length ∧
    sampleDriverClient.getMulti (toOriginalKeys [⟨1⟩])
      (toOriginalPropertyListList [⟨[]⟩]) = .ok [⟨[]⟩] ∧
    sampleDriverTx.getMulti (toOriginalKeys [⟨1⟩])
      (toOriginalPropertyListList [⟨[]⟩]) = .ok [⟨[]⟩] ∧
    ((originalClientBridgeImpl.GetMulti sampleDriverClient [⟨1⟩] [⟨[]⟩]).1 = none ∧
      (originalClientBridgeImpl.GetMulti sampleDriverClient [⟨1⟩] [⟨[]⟩]).2.length =
        ([⟨1⟩] : List WKey).length ∧
      (∀ i : Nat,
        (originalClientBridgeImpl.GetMulti sampleDriverClient [⟨1⟩] [⟨[]⟩]).2[i]? =
          (([⟨[]⟩] : List OPropertyList)[i]?).map toWrapperPropertyList) ∧
      (originalTransactionBridgeImpl.GetMulti (some sampleDriverTx) [⟨1⟩] [⟨[]⟩]).1 =
        none ∧
      (originalTransactionBridgeImpl.GetMulti
        (some sampleDriverTx) [⟨1⟩] [⟨[]⟩]).2.1.length = ([⟨1⟩] : List WKey).length ∧
      (∀ i : Nat,
        (originalTransactionBridgeImpl.GetMulti
          (some sampleDriverTx) [⟨1⟩] [⟨[]⟩]).2.1[i]? =
          (([⟨[]⟩] : List OPropertyList)[i]?).map toWrapperPropertyList)) :=
  ⟨rfl, rfl, rfl,
   c7_getmulti_positional_alignment sampleDriverClient sampleDriverTx [⟨1⟩] [⟨[]⟩]
     [⟨[]⟩] [⟨[]⟩] rfl rfl rfl rfl rfl⟩

/-- C10: a GetMulti whose driver call fails, on the non-transactional path and on the transactional path, returns only the normalized error and leaves the caller's property-list slice exactly as it was: the slot-by-slot write-back happens only on the success path. -/
theorem c10_getmulti_failure_frame (client : DriverClient) (tx : DriverTx)
    (keys : List WKey) (psList : List WPropertyList) (e1 e2 : OErr)
    (hC : client.getMulti (toOriginalKeys keys) (toOriginalPropertyListList psList) =
      .error e1)
    (hT : tx.getMulti (toOriginalKeys keys) (toOriginalPropertyListList psList) =
      .error e2) :
    originalClientBridgeImpl.GetMulti client keys psList =
      (some (toWrapperError e1), psList) ∧
    originalTransactionBridgeImpl.GetMulti (some tx) keys psList =
      (some (toWrapperError e2), psList, 1) := by
  constructor
  · simp only [originalClientBridgeImpl.GetMulti, hC]
  · simp only [originalTransactionBridgeImpl.GetMulti, getTx, hT]

theorem c10_getmulti_failure_frame_witness :
    failingDriverClient.getMulti (toOriginalKeys [⟨1⟩])
      (toOriginalPropertyListList [⟨[]⟩]) = .error (.other 7) ∧
    failingDriverTx.getMulti (toOriginalKeys [⟨1⟩])
      (toOriginalPropertyListList [⟨[]⟩]) = .error (.other 7) ∧
    (originalClientBridgeImpl.GetMulti failingDriverClient [⟨1⟩] [⟨[]⟩] =
      (some (toWrapperError (.other 7)), [⟨[]⟩]) ∧
    originalTransactionBridgeImpl.GetMulti (some failingDriverTx) [⟨1⟩] [⟨[]⟩] =
      (some (toWrapperError (.other 7)), [⟨[]⟩], 1)) :=
  ⟨rfl, rfl,
   c10_getmulti_failure_frame failingDriverClient failingDriverTx [⟨1⟩] [⟨[]⟩]
     (.other 7) (.other 7) rfl rfl⟩

theorem firstTxAwareHit_txAware :
    ∀ (ls : List CacheLayer) (start : Nat) (k : WKey) (j : Nat) (v : WPropertyList),
      firstTxAwareHit ls start k = some (j, v) →
      ∃ n l, ls[n]? = some l ∧ l.txAware = true ∧ j = start + n := by
  intro ls
  induction ls with
  | nil =>
    intro start k j v h
    simp [firstTxAwareHit] at h
  | cons l ls ih =>
    intro start k j v h
    by_cases hta : l.txAware
    · cases hl : l.lookup k with
      | some w =>
        simp only [firstTxAwareHit, hta, if_true, hl, Option.some.injEq, Prod.mk.injEq] at h
        exact ⟨0, l, by simp, hta, by omega⟩
      | none =>
        simp only [firstTxAwareHit, hta, if_true, hl] at h
        obtain ⟨n, l2, h1, h2, h3⟩ := ih (start + 1) k j v h
        exact ⟨n + 1, l2, by simpa using h1, h2, by omega⟩
    · simp only [firstTxAwareHit, hta, if_false, Bool.false_eq_true] at h
      obtain ⟨n, l2, h1, h2, h3⟩ := ih (start + 1) k j v h
      exact ⟨n + 1, l2, by simpa using h1, h2, by omega⟩

/-- C2: a batch read inside an active transaction (transactionImpl.GetMulti routed through the cache bridge) never returns a value originating from a cache layer that is not transaction-aware: any value served by a cache layer comes from a transaction-aware one, all other values come straight through the Transaction Bridge. -/
theorem c2_tx_reads_bypass_non_tx_aware_layers (layers : List CacheLayer)
    (fetch : WKey → WPropertyList) (keys : List WKey) (p : WPropertyList × Origin)
    (hp : p ∈ transactionImpl.GetMulti layers fetch keys) :
    ∀ i : Nat, p.2 = Origin.cache i →
      ∃ l, layers[i]? = some l ∧ l.txAware = true := by
  intro i hi
  unfold transactionImpl.GetMulti CacheBridge.GetMultiWithTx at hp
  obtain ⟨k, hk, hpk⟩ := List.mem_map.mp hp
  cases hhit : firstTxAwareHit layers 0 k with
  | none =>
    rw [hhit] at hpk
    rw [← hpk] at hi
    exact Origin.noConfusion (hi : Origin.txBridge = Origin.cache i)
  | some iv =>
    obtain ⟨j, v⟩ := iv
    rw [hhit] at hpk
    rw [← hpk] at hi
    obtain ⟨n, l, h1, h2, h3⟩ := firstTxAwareHit_txAware layers 0 k j v hhit
    have hji : j = i := by
      injection (hi : Origin.cache j = Origin.cache i)
    refine ⟨l, ?_, h2⟩
    rw [← hji, h3]
    simpa using h1

theorem c2_tx_reads_bypass_non_tx_aware_layers_witness :
    ((⟨[]⟩, Origin.cache 1) ∈ transactionImpl.GetMulti sampleLayers sampleFetch [⟨5⟩]) ∧
    ((⟨[]⟩, Origin.cache 1) : WPropertyList × Origin).2 = Origin.cache 1 ∧
    ∃ l, sampleLayers[1]? = some l ∧ l.txAware = true :=
  ⟨List.Mem.head _, rfl,
   c2_tx_reads_bypass_non_tx_aware_layers sampleLayers sampleFetch [⟨5⟩]
     (⟨[]⟩, Origin.cache 1) (List.Mem.head _) 1 rfl⟩

/-- C8: an iterator produced by Run from a query that already failed to build carries that failure, and the first Next call on it returns exactly that error immediately, leaves the buffer and the iterator untouched, and performs zero driver-cursor calls. -/
theorem c8_run_carries_first_error (client : DriverClient) (q : queryImpl)
    (ps : WPropertyList) (e : WError) (h : q.firstError = some e) :
    (originalClientBridgeImpl.Run client q).firstError = some e ∧
    iteratorImpl.Next (originalClientBridgeImpl.Run client q) ps =
      (.error e, ps, originalClientBridgeImpl.Run client q, 0) := by
  constructor
  · exact h
  · simp [iteratorImpl.Next, originalClientBridgeImpl.Run, h]

theorem c8_run_carries_first_error_witness :
    (⟨0, some (.unknown 3)⟩ : queryImpl).firstError = some (.unknown 3) ∧
    ((originalClientBridgeImpl.Run sampleDriverClient ⟨0, some (.unknown 3)⟩).firstError =
        some (.unknown 3) ∧
      iteratorImpl.Next
        (originalClientBridgeImpl.Run sampleDriverClient ⟨0, some (.unknown 3)⟩) ⟨[]⟩ =
        (.error (.unknown 3), ⟨[]⟩,
          originalClientBridgeImpl.Run sampleDriverClient ⟨0, some (.unknown 3)⟩, 0)) :=
  ⟨rfl,
   c8_run_carries_first_error sampleDriverClient ⟨0, some (.unknown 3)⟩ ⟨[]⟩
     (.unknown 3) rfl⟩

/-- C9: once a Next call on an iterator has returned errDone, the iterator comes back unchanged, and every further Next call returns errDone again without advancing it; the embedding of Next is a total function, so no call panics. -/
theorem c9_exhausted_iterator_idempotent (iter : iteratorImpl) (ps : WPropertyList)
    (h : (iteratorImpl.Next iter ps).1 = .error .errDone) :
    (iteratorImpl.Next iter ps).2.2.1 = iter ∧
    ∀ ps2 : WPropertyList,
      (iteratorImpl.Next iter ps2).1 = .error .errDone ∧
      (iteratorImpl.Next iter ps2).2.2.1 = iter := by
  obtain ⟨⟨items⟩, fe⟩ := iter
  cases fe with
  | some e =>
    have he : e = .errDone := by
      simpa [iteratorImpl.Next] using h
    subst he
    exact ⟨rfl, fun ps2 => ⟨rfl, rfl⟩⟩
  | none =>
    cases items with
    | nil => exact ⟨rfl, fun ps2 => ⟨rfl, rfl⟩⟩
    | cons x xs =>
      simp [iteratorImpl.Next, originalIteratorBridgeImpl.Next, DriverIterator.next] at h

theorem c9_exhausted_iterator_idempotent_witness :
    (iteratorImpl.Next ⟨⟨[]⟩, none⟩ ⟨[]⟩).1 = .error .errDone ∧
    ((iteratorImpl.Next ⟨⟨[]⟩, none⟩ ⟨[]⟩).2.2.1 = ⟨⟨[]⟩, none⟩ ∧
      ∀ ps2 : WPropertyList,
        (iteratorImpl.Next ⟨⟨[]⟩, none⟩ ps2).1 = .error .errDone ∧
        (iteratorImpl.Next ⟨⟨[]⟩, none⟩ ps2).2.2.1 = ⟨⟨[]⟩, none⟩) :=
  ⟨rfl, c9_exhausted_iterator_idempotent ⟨⟨[]⟩, none⟩ ⟨[]⟩ rfl⟩
